import Mathlib

/-!
# Verification of the smotra monitoring agent against its specification

Shallow embedding of the agent's configuration store, validation, hot reload,
monitor dispatcher, ICMP prober aggregation, claim workflow (registration
retry, status polling) and TOML (de)serialisation, translated from the Rust
sources (`src/agent_config/*`, `src/core/*`, `src/monitor/*`, `src/claim/*`),
together with proofs and refutations of the specification's claims.

Modelling conventions:
* Rust machine integers (`u32`, `u64`, `usize`) are embedded as `Nat` holding
  the stored value; the one arithmetic operation where overflow is reachable
  from user input (`timeout_secs * 2` in `Config::validate`) is modelled with
  release-mode wrapping semantics (`% 2 ^ 64`).
* `uuid::Uuid` is embedded as the 128-bit value it wraps (a `Nat`); the nil
  UUID is `0`.
* `f64` latencies are embedded as `ℚ`.
* Fallible Rust functions returning `Result<T, Error>` become
  `Except AgentError T`; reaching `unreachable!()` is modelled by a dedicated
  `none`/outcome constructor.
-/

deriving instance DecidableEq for Except

namespace Smotra

/-- Error enum from `src/error.rs`. The packaged `error.rs` revision predates
two variants that the packaged call sites require (`ClaimExpired` used by
`claim/workflow.rs`, `ConfigApiKey` used by `agent_config/loader.rs`); those
two are included here following those call sites and the spec's error
taxonomy (§7). Variants irrelevant to the claims are elided. -/
inductive AgentError where
  | Config (msg : String)
  | ConfigApiKey (msg : String)
  | Network (msg : String)
  | Serialization (msg : String)
  | Authentication (msg : String)
  | ClaimExpired
  deriving DecidableEq, Repr

/-- `Endpoint` from `src/core/types.rs` (lines 189-205). -/
structure Endpoint where
  address : String
  port : Option Nat
  tags : List String
  enabled : Bool
  deriving DecidableEq, Repr

/-- `MonitoringConfig` from `src/agent_config/types.rs`. -/
structure MonitoringConfig where
  interval_secs : Nat
  timeout_secs : Nat
  ping_count : Nat
  max_concurrent : Nat
  traceroute_on_failure : Bool
  traceroute_max_hops : Nat
  deriving DecidableEq, Repr

/-- `impl Default for MonitoringConfig` from `src/agent_config/types.rs`. -/
def MonitoringConfig.defaultConfig : MonitoringConfig :=
  { interval_secs := 60
    timeout_secs := 1
    ping_count := 3
    max_concurrent := 10
    traceroute_on_failure := false
    traceroute_max_hops := 30 }

/-- `ClaimConfig` from `src/agent_config/server_config/types.rs`. -/
structure ClaimConfig where
  poll_interval_secs : Nat
  max_registration_retries : Nat
  deriving DecidableEq, Repr

/-- `impl Default for ClaimConfig`. -/
def ClaimConfig.defaultConfig : ClaimConfig :=
  { poll_interval_secs := 30, max_registration_retries := 5 }

/-- `ServerConfig` from `src/agent_config/server_config/types.rs`. -/
structure ServerConfig where
  url : String
  api_key : Option String
  report_interval_secs : Nat
  heartbeat_interval_secs : Nat
  verify_tls : Bool
  timeout_secs : Nat
  retry_attempts : Nat
  claiming : ClaimConfig
  deriving DecidableEq, Repr

/-- `impl Default for ServerConfig`. -/
def ServerConfig.defaultConfig : ServerConfig :=
  { url := "https://api.smotra.net"
    api_key := none
    report_interval_secs := 300
    heartbeat_interval_secs := 300
    verify_tls := true
    timeout_secs := 5
    retry_attempts := 3
    claiming := ClaimConfig.defaultConfig }

/-- `StorageConfig` from `src/agent_config/types.rs`. -/
structure StorageConfig where
  cache_dir : String
  max_cached_results : Nat
  max_cache_age_secs : Nat
  deriving DecidableEq, Repr

/-- `impl Default for StorageConfig`. -/
def StorageConfig.defaultConfig : StorageConfig :=
  { cache_dir := "./cache", max_cached_results := 10000, max_cache_age_secs := 86400 }

/-- `Config` from `src/agent_config/types.rs`, in the revision used by
`src/agent_config/loader.rs` and `src/core/agent.rs` where `agent_id` is a
`uuid::Uuid` (embedded as its 128-bit value; nil = 0). -/
structure Config where
  version : Nat
  agent_id : Nat
  agent_name : String
  tags : List String
  monitoring : MonitoringConfig
  server : ServerConfig
  storage : StorageConfig
  endpoints : List Endpoint
  deriving DecidableEq, Repr

/-- `impl Default for Config` from `src/agent_config/types.rs` (lines 36-49).
The source draws `agent_id` as a fresh random v4 UUID (`uuid::Uuid::new_v4()`);
the embedding is parameterised by the drawn value `freshAgentId`. A v4 UUID
has its version nibble fixed to 4, so the drawn value is never 0 (never nil). -/
def Config.defaultConfig (freshAgentId : Nat) : Config :=
  { version := 0
    agent_id := freshAgentId
    agent_name := "Unnamed Agent"
    tags := []
    monitoring := MonitoringConfig.defaultConfig
    server := ServerConfig.defaultConfig
    storage := StorageConfig.defaultConfig
    endpoints := [] }

/-- `Config::validate` from `src/agent_config/loader.rs` (lines 91-132): the
checks in source order, first violation wins. The source computes
`self.server.timeout_secs * 2` in `u64`; the multiplication is modelled with
release-mode wrapping semantics, `(timeout_secs * 2) % 2 ^ 64`. -/
def Config.validate (c : Config) : Except AgentError Unit :=
  if c.agent_id = 0 then
    .error (.Config "agent_id cannot be nil UUID")
  else if c.monitoring.interval_secs = 0 then
    .error (.Config "monitoring interval must be greater than 0")
  else if c.server.report_interval_secs = 0 then
    .error (.Config "server report_interval must be greater than 0")
  else if c.server.timeout_secs = 0 then
    .error (.Config "server timeout must be greater than 0")
  else if c.server.report_interval_secs < c.server.timeout_secs * 2 % 2 ^ 64 then
    .error (.Config
      "server report_interval should be at least two times greater than the monitoring interval")
  else if c.server.url = "" then
    .error (.Config "server URL cannot be empty")
  else if c.server.api_key.isSome ∧ c.server.api_key.getD "" = "" then
    .error (.ConfigApiKey "server API key cannot be empty")
  else
    .ok ()

/-! ## Agent supervisor state and hot reload (`src/core/agent.rs`) -/

/-- The configuration cell of `Agent` from `src/core/agent.rs`: the
`Arc<RwLock<Config>>` holding the stored configuration. The status cell and
shutdown channel do not participate in the reload claims; the `RwLock` swap
(`*self.config.write() = new_config`) is a single assignment under the
exclusive write lock and is modelled as sequential state replacement. -/
structure Agent where
  config : Config
  deriving DecidableEq, Repr

/-- `Agent::new` (config cell part). -/
def Agent.new (config : Config) : Agent := { config }

/-- `Agent::config_clone` from `src/core/agent.rs` (lines 222-224): clone of
the stored configuration under the read lock. -/
def Agent.config_clone (a : Agent) : Config := a.config

/-- `Agent::reload_config` from `src/core/agent.rs` (lines 160-182):
`new_config.validate()?` aborts with the validation error before any write;
on success the new configuration is stored (the diff-logging helper
`warn_if_critical_changes` only logs). Returns the call's result together
with the post-call agent state. -/
def Agent.reload_config (a : Agent) (new_config : Config) :
    Except AgentError Unit × Agent :=
  match new_config.validate with
  | .error e => (.error e, a)
  | .ok _ => (.ok (), { a with config := new_config })

/-- `Agent::update_config` from `src/core/agent.rs` (lines 133-137):
unconditional swap, no validation. -/
def Agent.update_config (a : Agent) (config : Config) :
    Except AgentError Unit × Agent :=
  (.ok (), { a with config })

/-! ## Monitoring results (`src/core/types.rs`) -/

/-- `PingResult` from `src/core/types.rs`; `f64` latencies as `ℚ`. -/
structure PingResult where
  resolved_ip : Option String
  successes : Nat
  failures : Nat
  success_latencies : List ℚ
  avg_response_time_ms : Option ℚ
  errors : List String
  deriving DecidableEq, Repr

/-- `TracerouteResult` from `src/core/types.rs` (hop detail elided to the
fields `is_successful`/`response_time_ms` consume). -/
structure TracerouteResult where
  target_reached : Bool
  total_time_ms : Option ℚ
  errors : List String
  deriving DecidableEq, Repr

/-- `TcpConnectResult` from `src/core/types.rs`. -/
structure TcpConnectResult where
  connected : Bool
  connect_time_ms : Option ℚ
  error : Option String
  resolved_ip : Option String
  deriving DecidableEq, Repr

/-- `UdpConnectResult` from `src/core/types.rs`. -/
structure UdpConnectResult where
  probe_successful : Bool
  response_time_ms : Option ℚ
  error : Option String
  resolved_ip : Option String
  deriving DecidableEq, Repr

/-- `HttpGetResult` from `src/core/types.rs`. -/
structure HttpGetResult where
  status_code : Option Nat
  response_time_ms : Option ℚ
  response_size_bytes : Option Nat
  error : Option String
  success : Bool
  deriving DecidableEq, Repr

/-- `PluginResult` from `src/core/types.rs` (the string-map payload elided). -/
structure PluginResult where
  plugin_name : String
  plugin_version : String
  success : Bool
  response_time_ms : Option ℚ
  error : Option String
  deriving DecidableEq, Repr

/-- `CheckType` from `src/core/types.rs` (lines 76-85). -/
inductive CheckType where
  | Ping (result : PingResult)
  | Traceroute (result : TracerouteResult)
  | TcpConnect (result : TcpConnectResult)
  | UdpConnect (result : UdpConnectResult)
  | HttpGet (result : HttpGetResult)
  | Plugin (result : PluginResult)
  deriving DecidableEq, Repr

/-- `MonitoringResult` from `src/core/types.rs` (lines 9-21); the random
result `id` and the wall-clock `timestamp` are elided (no claim reads them). -/
structure MonitoringResult where
  agent_id : String
  target : Endpoint
  check_type : CheckType
  deriving DecidableEq, Repr

/-- `MonitoringResult::is_successful` from `src/core/types.rs` (lines 23-34). -/
def MonitoringResult.is_successful (r : MonitoringResult) : Bool :=
  match r.check_type with
  | .Ping result => result.successes > 0
  | .Traceroute result => result.target_reached
  | .TcpConnect result => result.connected
  | .UdpConnect result => result.probe_successful
  | .HttpGet result => result.success
  | .Plugin result => result.success

/-- `MonitoringResult::response_time_ms` from `src/core/types.rs`. -/
def MonitoringResult.response_time_ms (r : MonitoringResult) : Option ℚ :=
  match r.check_type with
  | .Ping result => result.avg_response_time_ms
  | .Traceroute result => result.total_time_ms
  | .TcpConnect result => result.connect_time_ms
  | .UdpConnect result => result.response_time_ms
  | .HttpGet result => result.response_time_ms
  | .Plugin result => result.response_time_ms

/-- `AgentStatus` from `src/core/types.rs` (lines 234-258); timestamps elided
(no claim reads them). Counters are `u64`; they are embedded as `Nat` — a wrap
would require `2 ^ 64` single increments in one run. -/
structure AgentStatus where
  agent_id : String
  is_running : Bool
  checks_performed : Nat
  checks_successful : Nat
  checks_failed : Nat
  failed_report_count : Nat
  server_connected : Bool
  cached_results : Nat
  deriving DecidableEq, Repr

/-- `AgentStatus::new` (over `Default`, all counters zero). -/
def AgentStatus.new (agent_id : String) : AgentStatus :=
  { agent_id
    is_running := false
    checks_performed := 0
    checks_successful := 0
    checks_failed := 0
    failed_report_count := 0
    server_connected := false
    cached_results := 0 }

/-! ## ICMP prober (`src/monitor/ping.rs`) -/

/-- Outcome of one awaited echo, as produced by `PingChecker::ping_once`:
either a round-trip latency or an error string (ping failure or timeout). -/
inductive EchoOutcome where
  | success (latencyMs : ℚ)
  | failure (msg : String)
  deriving DecidableEq, Repr

/-- One iteration of the echo loop in `PingChecker::check`
(`src/monitor/ping.rs` lines 65-77): on success increment `successes` and push
the latency, on failure increment `failures` and push the error. -/
def pingStep (acc : Nat × Nat × List ℚ × List String) (o : EchoOutcome) :
    Nat × Nat × List ℚ × List String :=
  match acc, o with
  | (successes, failures, lats, errs), .success l =>
      (successes + 1, failures, lats ++ [l], errs)
  | (successes, failures, lats, errs), .failure e =>
      (successes, failures + 1, lats, errs ++ [e])

/-- The echo-accumulation phase of `PingChecker::check`
(`src/monitor/ping.rs` lines 59-97): fold the echo outcomes, then set
`avg_response_time_ms` to the mean of `success_latencies` when that list is
non-empty and to `None` otherwise. -/
def pingAccumulate (resolvedIp : String) (outcomes : List EchoOutcome) :
    PingResult :=
  let acc := outcomes.foldl pingStep (0, 0, [], [])
  { resolved_ip := some resolvedIp
    successes := acc.1
    failures := acc.2.1
    success_latencies := acc.2.2.1
    avg_response_time_ms :=
      if acc.2.2.1 ≠ [] then some (acc.2.2.1.sum / acc.2.2.1.length) else none
    errors := acc.2.2.2 }

/-- The one-shot failure result `PingChecker::check` emits when address
resolution fails (`src/monitor/ping.rs` lines 38-56). -/
def pingResolveFailure (err : String) : PingResult :=
  { resolved_ip := none
    successes := 0
    failures := 1
    success_latencies := []
    avg_response_time_ms := none
    errors := ["Failed to resolve address: " ++ err] }

/-- `PingChecker::check` (`src/monitor/ping.rs` lines 33-107): the resolution
step is represented by its outcome (the echo transport itself lives outside
the embedding); the produced `MonitoringResult` wraps the ping detail. -/
def pingCheck (agent_id : String) (endpoint : Endpoint)
    (resolution : Except String String) (outcomes : List EchoOutcome) :
    MonitoringResult :=
  match resolution with
  | .error e =>
      { agent_id, target := endpoint, check_type := .Ping (pingResolveFailure e) }
  | .ok ip =>
      { agent_id, target := endpoint, check_type := .Ping (pingAccumulate ip outcomes) }

/-- Whether an echo outcome is a success (`Ok(rtt)` from `ping_once`). -/
def EchoOutcome.isSuccess : EchoOutcome → Bool
  | .success _ => true
  | .failure _ => false

/-- The latency of a successful echo outcome. -/
def EchoOutcome.latencyMs? : EchoOutcome → Option ℚ
  | .success l => some l
  | .failure _ => none

/-! ## Monitor dispatcher (`src/monitor/coordinator.rs`) -/

/-- The endpoint selection of one tick of `run_check_loop`
(`src/monitor/coordinator.rs` lines 118-147): if `config.endpoints` is empty
the tick does nothing (`continue`); otherwise every element of
`config.endpoints` is handed to the prober, in order. No field of the
endpoints is consulted. -/
def tickProbedEndpoints (c : Config) : List Endpoint :=
  if c.endpoints.isEmpty then [] else c.endpoints

/-- One step of the result-aggregation task in `run_monitoring`
(`src/monitor/coordinator.rs` lines 70-90): `checks_performed += 1` and
exactly one of `checks_successful` / `checks_failed` `+= 1` according to the
result's success bit. The packaged coordinator revision reads the flat
`result.success` field; the canonical typed revision derives the same bit via
`MonitoringResult::is_successful` (spec §9 note), which is used here. -/
def AgentStatus.processResult (s : AgentStatus) (r : MonitoringResult) :
    AgentStatus :=
  let s1 := { s with checks_performed := s.checks_performed + 1 }
  if r.is_successful then
    { s1 with checks_successful := s1.checks_successful + 1 }
  else
    { s1 with checks_failed := s1.checks_failed + 1 }

/-- The result-aggregation task over a finite drained sequence of results. -/
def AgentStatus.processResults (s : AgentStatus) (rs : List MonitoringResult) :
    AgentStatus :=
  rs.foldl AgentStatus.processResult s

/-! ## Registration with retry (`src/claim/registration.rs`) -/

/-- `RegistrationResponse` from `src/claim/types.rs`; `expires_at` as unix
seconds. -/
structure RegistrationResponse where
  status : String
  poll_url : String
  claim_url : String
  expires_at : Int
  deriving DecidableEq, Repr

/-- The HTTP reply observed by `register_agent`: either the send itself
failed, or a response arrived carrying a status code, the body text, and the
outcome of decoding the body as a `RegistrationResponse`. -/
inductive RegReply where
  | sendFailure (msg : String)
  | response (status : Nat) (parseOutcome : Except String RegistrationResponse)
      (text : String)
  deriving DecidableEq, Repr

/-- `register_agent` from `src/claim/registration.rs` (lines 67-104): send
failure → `Network`; 2xx status → decode body (decode failure → `Network`);
any non-2xx status → `Network` with the status and body text. -/
def registerAgent (reply : RegReply) : Except AgentError RegistrationResponse :=
  match reply with
  | .sendFailure m =>
      .error (.Network ("Failed to send registration request: " ++ m))
  | .response status parseOutcome text =>
      if 200 ≤ status ∧ status ≤ 299 then
        match parseOutcome with
        | .ok r => .ok r
        | .error m =>
            .error (.Network ("Failed to parse registration response: " ++ m))
      else
        .error (.Network
          ("Registration failed with status " ++ toString status ++ ": " ++ text))

/-- Observable run of `register_with_retry`: its returned value (`none`
models falling through the loop into `unreachable!()`, i.e. a panic), the
number of `register_agent` calls performed, and the slept backoff delays in
seconds, in order. -/
structure RegRun where
  result : Option (Except AgentError RegistrationResponse)
  attempts : Nat
  sleeps : List Nat
  deriving DecidableEq, Repr

/-- The loop of `register_with_retry` from `src/claim/registration.rs`
(lines 30-51), from loop variable `attempt` with current `delay` (seconds):
while `attempt < max_retries`, call `register_agent` (outcome given by
`oracle attempt`); return the first success; on an error with
`attempt < max_retries - 1` sleep `delay`, double it and continue; on an
error at the last attempt return that error. Falling out of the loop reaches
`unreachable!()`, modelled as `result = none`. -/
def registerAux (oracle : Nat → Except AgentError RegistrationResponse)
    (max_retries : Nat) (attempt : Nat) (delay : Nat) : RegRun :=
  if _h : attempt < max_retries then
    match oracle attempt with
    | .ok r => { result := some (.ok r), attempts := 1, sleeps := [] }
    | .error e =>
        if attempt < max_retries - 1 then
          let rest := registerAux oracle max_retries (attempt + 1) (delay * 2)
          { result := rest.result
            attempts := rest.attempts + 1
            sleeps := delay :: rest.sleeps }
        else
          { result := some (.error e), attempts := 1, sleeps := [] }
  else
    { result := none, attempts := 0, sleeps := [] }
  termination_by max_retries - attempt

/-- `register_with_retry` from `src/claim/registration.rs` (lines 24-51):
starts at `attempt = 0` with `delay = 1` second. `oracle i` is the outcome of
the `i`-th `register_agent` call (0-indexed). -/
def registerWithRetry (oracle : Nat → Except AgentError RegistrationResponse)
    (max_retries : Nat) : RegRun :=
  registerAux oracle max_retries 0 1

/-! ## Claim status polling (`src/claim/polling.rs`, `src/claim/workflow.rs`) -/

/-- The decoded body of one poll response, as `check_claim_status` inspects
it: a well-formed `pending_claim` body with its `expiresAt` (unix seconds), a
well-formed `claimed` body with its `apiKey`, a JSON object whose `status`
field is missing or unrecognised, or body text that is not valid JSON. -/
inductive PollBody where
  | pendingClaim (expiresAt : Int)
  | claimedKey (apiKey : String)
  | unknownStatus (statusField : Option String)
  | malformed (msg : String)
  deriving DecidableEq, Repr

/-- One HTTP poll response: status code and decoded body view. -/
structure PollResponse where
  status : Nat
  body : PollBody
  text : String
  deriving DecidableEq, Repr

/-- `ClaimStatus` from `src/claim/types.rs`, with the fields `poll_claim_status`
consumes. -/
inductive ClaimStatus where
  | Pending (expires_at : Int)
  | Claimed (api_key : String)
  deriving DecidableEq, Repr

/-- `check_claim_status` from `src/claim/polling.rs` (lines 81-139): 200 →
decode (unknown status field → `Network`, undecodable JSON →
`Serialization`); 404 → `Network "Agent registration not found or expired"`;
any other status → `Network` with the code and body text. -/
def checkClaimStatus (r : PollResponse) : Except AgentError ClaimStatus :=
  if r.status = 200 then
    match r.body with
    | .pendingClaim t => .ok (.Pending t)
    | .claimedKey k => .ok (.Claimed k)
    | .unknownStatus s =>
        .error (.Network ("Unknown claim status: " ++ toString (repr s)))
    | .malformed m => .error (.Serialization m)
  else if r.status = 404 then
    .error (.Network "Agent registration not found or expired")
  else
    .error (.Network
      ("Polling failed with HTTP status code " ++ toString r.status ++ ": " ++ r.text))

/-- The loop of `poll_claim_status` from `src/claim/polling.rs` (lines 36-63)
over a finite script of poll responses, each paired with the wall-clock `now`
(unix seconds) at which it is handled: a pending status whose `expires_at` is
not in the future ends the loop with `Ok(None)`; a claimed status ends it
with `Ok(Some(api_key))`; any `check_claim_status` error propagates (`?`);
otherwise sleep and poll again. `none` means the script was exhausted with the
loop still polling. -/
def pollClaimStatus : List (PollResponse × Int) →
    Option (Except AgentError (Option String))
  | [] => none
  | (r, now) :: rest =>
      match checkClaimStatus r with
      | .error e => some (.error e)
      | .ok (.Pending expires_at) =>
          if expires_at - now ≤ 0 then some (.ok none) else pollClaimStatus rest
      | .ok (.Claimed api_key) => some (.ok (some api_key))

/-- The tail of `Claim::run` from `src/claim/workflow.rs` (lines 119-141):
propagate a polling error (`?`); map `Some(api_key)` to success (after
persisting) and `None` to `Error::ClaimExpired`. -/
def claimRunOutcome (pollResult : Except AgentError (Option String)) :
    Except AgentError String :=
  match pollResult with
  | .error e => .error e
  | .ok (some api_key) => .ok api_key
  | .ok none => .error .ClaimExpired

/-! ## Configuration (de)serialisation (`src/agent_config/loader.rs`)

`Config::save_to_file_secure` serialises with `toml::to_string_pretty` and
`Config::from_file` parses with `toml::from_str`. The external `toml` crate's
text layer is modelled at the TOML *value* level: a file's content is the tree
of tables/arrays/scalars the serde derives produce and consume. What remains
in the embedding is exactly the repository-owned part of the mapping: field
names, nesting, `Option` fields omitted when `None`, and the
`#[serde(default)]` on `Endpoint::enabled`. -/

/-- A TOML value tree (the `toml` crate's data model; integers are modelled
as unbounded `Int`, datetimes/floats do not occur in `Config`). -/
inductive Toml where
  | vStr (s : String)
  | vInt (n : Int)
  | vBool (b : Bool)
  | vArr (xs : List Toml)
  | vTable (kvs : List (String × Toml))

/-- Key lookup in a TOML table. -/
def Toml.lookup (t : Toml) (key : String) : Option Toml :=
  match t with
  | .vTable kvs => kvs.lookup key
  | _ => none

/-- Decode an unsigned integer field (serde visitor for `u32`/`u64`/`usize`). -/
def Toml.asNat : Option Toml → Option Nat
  | some (.vInt n) => if 0 ≤ n then some n.toNat else none
  | _ => none

/-- Decode a string field. -/
def Toml.asStr : Option Toml → Option String
  | some (.vStr s) => some s
  | _ => none

/-- Decode a boolean field. -/
def Toml.asBool : Option Toml → Option Bool
  | some (.vBool b) => some b
  | _ => none

/-- Decode a sequence of strings element by element, failing on the first
non-string element (serde sequence visitor semantics). -/
def decodeStrs : List Toml → Option (List String)
  | [] => some []
  | .vStr s :: rest => (decodeStrs rest).map (s :: ·)
  | _ => none

/-- Decode an array-of-strings field. -/
def Toml.asStrList : Option Toml → Option (List String)
  | some (.vArr xs) => decodeStrs xs
  | _ => none

/-- An `Option` field: serialised as its key when `Some`, omitted when
`None` (the `toml` serde behaviour for `Option`). -/
def optField (key : String) (v : Option Toml) : List (String × Toml) :=
  match v with
  | some t => [(key, t)]
  | none => []

/-- Lowercase hex digit characters, as `uuid`'s `Display` emits them. -/
def hexDigitChar (d : Nat) : Char :=
  match d with
  | 0 => '0' | 1 => '1' | 2 => '2' | 3 => '3' | 4 => '4' | 5 => '5'
  | 6 => '6' | 7 => '7' | 8 => '8' | 9 => '9' | 10 => 'a' | 11 => 'b'
  | 12 => 'c' | 13 => 'd' | 14 => 'e' | 15 => 'f' | _ => '0'

/-- Value of a lowercase hex digit character; `16` marks a non-hex-digit. -/
def hexCharVal (c : Char) : Nat :=
  match c with
  | '0' => 0 | '1' => 1 | '2' => 2 | '3' => 3 | '4' => 4 | '5' => 5
  | '6' => 6 | '7' => 7 | '8' => 8 | '9' => 9 | 'a' => 10 | 'b' => 11
  | 'c' => 12 | 'd' => 13 | 'e' => 14 | 'f' => 15 | _ => 16

/-- Whether a character is a lowercase hex digit. -/
def isHexLower (c : Char) : Bool := hexCharVal c < 16

/-- The `uuid` crate's string rendering of a 128-bit UUID value, in the
"simple" form: 32 lowercase hex digits, most significant first (the constant
hyphen separators of the hyphenated form carry no information and are elided;
`Uuid::parse_str` accepts both forms). -/
def uuidToString (n : Nat) : String :=
  let ds := Nat.digits 16 n
  String.mk (((ds ++ List.replicate (32 - ds.length) 0).reverse).map hexDigitChar)

/-- `Uuid::parse_str` on a simple-form string: exactly 32 lowercase hex
digits. -/
def uuidFromString (s : String) : Option Nat :=
  if s.data.length = 32 ∧ s.data.all isHexLower then
    some (Nat.ofDigits 16 ((s.data.map hexCharVal).reverse))
  else
    none

/-- Serde serialisation of `MonitoringConfig`. -/
def MonitoringConfig.toToml (m : MonitoringConfig) : Toml :=
  .vTable
    [("interval_secs", .vInt m.interval_secs),
     ("timeout_secs", .vInt m.timeout_secs),
     ("ping_count", .vInt m.ping_count),
     ("max_concurrent", .vInt m.max_concurrent),
     ("traceroute_on_failure", .vBool m.traceroute_on_failure),
     ("traceroute_max_hops", .vInt m.traceroute_max_hops)]

/-- Serde deserialisation of `MonitoringConfig`. -/
def MonitoringConfig.fromToml (t : Toml) : Option MonitoringConfig := do
  let interval_secs ← Toml.asNat (t.lookup "interval_secs")
  let timeout_secs ← Toml.asNat (t.lookup "timeout_secs")
  let ping_count ← Toml.asNat (t.lookup "ping_count")
  let max_concurrent ← Toml.asNat (t.lookup "max_concurrent")
  let traceroute_on_failure ← Toml.asBool (t.lookup "traceroute_on_failure")
  let traceroute_max_hops ← Toml.asNat (t.lookup "traceroute_max_hops")
  pure { interval_secs, timeout_secs, ping_count, max_concurrent,
         traceroute_on_failure, traceroute_max_hops }

/-- Serde serialisation of `ClaimConfig`. -/
def ClaimConfig.toToml (c : ClaimConfig) : Toml :=
  .vTable
    [("poll_interval_secs", .vInt c.poll_interval_secs),
     ("max_registration_retries", .vInt c.max_registration_retries)]

/-- Serde deserialisation of `ClaimConfig`. -/
def ClaimConfig.fromToml (t : Toml) : Option ClaimConfig := do
  let poll_interval_secs ← Toml.asNat (t.lookup "poll_interval_secs")
  let max_registration_retries ← Toml.asNat (t.lookup "max_registration_retries")
  pure { poll_interval_secs, max_registration_retries }

/-- Serde serialisation of `ServerConfig` (`api_key` omitted when `None`). -/
def ServerConfig.toToml (s : ServerConfig) : Toml :=
  .vTable
    ([("url", .vStr s.url)] ++
     optField "api_key" (s.api_key.map .vStr) ++
     [("report_interval_secs", .vInt s.report_interval_secs),
      ("heartbeat_interval_secs", .vInt s.heartbeat_interval_secs),
      ("verify_tls", .vBool s.verify_tls),
      ("timeout_secs", .vInt s.timeout_secs),
      ("retry_attempts", .vInt s.retry_attempts),
      ("claiming", s.claiming.toToml)])

/-- Serde deserialisation of `ServerConfig`. -/
def ServerConfig.fromToml (t : Toml) : Option ServerConfig := do
  let url ← Toml.asStr (t.lookup "url")
  let api_key ←
    match t.lookup "api_key" with
    | none => pure none
    | some v => match v with | .vStr s => pure (some s) | _ => none
  let report_interval_secs ← Toml.asNat (t.lookup "report_interval_secs")
  let heartbeat_interval_secs ← Toml.asNat (t.lookup "heartbeat_interval_secs")
  let verify_tls ← Toml.asBool (t.lookup "verify_tls")
  let timeout_secs ← Toml.asNat (t.lookup "timeout_secs")
  let retry_attempts ← Toml.asNat (t.lookup "retry_attempts")
  let claiming ← match t.lookup "claiming" with
    | some ct => ClaimConfig.fromToml ct
    | none => none
  pure { url, api_key, report_interval_secs, heartbeat_interval_secs,
         verify_tls, timeout_secs, retry_attempts, claiming }

/-- Serde serialisation of `StorageConfig`. -/
def StorageConfig.toToml (s : StorageConfig) : Toml :=
  .vTable
    [("cache_dir", .vStr s.cache_dir),
     ("max_cached_results", .vInt s.max_cached_results),
     ("max_cache_age_secs", .vInt s.max_cache_age_secs)]

/-- Serde deserialisation of `StorageConfig`. -/
def StorageConfig.fromToml (t : Toml) : Option StorageConfig := do
  let cache_dir ← Toml.asStr (t.lookup "cache_dir")
  let max_cached_results ← Toml.asNat (t.lookup "max_cached_results")
  let max_cache_age_secs ← Toml.asNat (t.lookup "max_cache_age_secs")
  pure { cache_dir, max_cached_results, max_cache_age_secs }

/-- Serde serialisation of `Endpoint` (`port` omitted when `None`). -/
def Endpoint.toToml (e : Endpoint) : Toml :=
  .vTable
    ([("address", .vStr e.address)] ++
     optField "port" (e.port.map fun p => .vInt p) ++
     [("tags", .vArr (e.tags.map .vStr)),
      ("enabled", .vBool e.enabled)])

/-- Serde deserialisation of `Endpoint`; a missing `enabled` key defaults to
`true` (`#[serde(default = "default_enabled")]`, `src/core/types.rs`
lines 198-205). -/
def Endpoint.fromToml (t : Toml) : Option Endpoint := do
  let address ← Toml.asStr (t.lookup "address")
  let port ←
    match t.lookup "port" with
    | none => pure none
    | some v =>
        match v with
        | .vInt n => if 0 ≤ n then pure (some n.toNat) else none
        | _ => none
  let tags ← Toml.asStrList (t.lookup "tags")
  let enabled ←
    match t.lookup "enabled" with
    | none => pure true
    | some v => match v with | .vBool b => pure b | _ => none
  pure { address, port, tags, enabled }

/-- Decode a sequence of endpoints element by element, failing on the first
undecodable element (serde sequence visitor semantics). -/
def decodeEndpoints : List Toml → Option (List Endpoint)
  | [] => some []
  | t :: rest => do
      let e ← Endpoint.fromToml t
      let es ← decodeEndpoints rest
      pure (e :: es)

/-- Serde serialisation of `Config` (`agent_id` rendered through the `uuid`
string form). -/
def Config.toToml (c : Config) : Toml :=
  .vTable
    [("version", .vInt c.version),
     ("agent_id", .vStr (uuidToString c.agent_id)),
     ("agent_name", .vStr c.agent_name),
     ("tags", .vArr (c.tags.map .vStr)),
     ("monitoring", c.monitoring.toToml),
     ("server", c.server.toToml),
     ("storage", c.storage.toToml),
     ("endpoints", .vArr (c.endpoints.map Endpoint.toToml))]

/-- Serde deserialisation of `Config`. -/
def Config.fromToml (t : Toml) : Option Config := do
  let version ← Toml.asNat (t.lookup "version")
  let agent_id ←
    match Toml.asStr (t.lookup "agent_id") with
    | some s => uuidFromString s
    | none => none
  let agent_name ← Toml.asStr (t.lookup "agent_name")
  let tags ← Toml.asStrList (t.lookup "tags")
  let monitoring ← match t.lookup "monitoring" with
    | some mt => MonitoringConfig.fromToml mt
    | none => none
  let server ← match t.lookup "server" with
    | some st => ServerConfig.fromToml st
    | none => none
  let storage ← match t.lookup "storage" with
    | some st => StorageConfig.fromToml st
    | none => none
  let endpoints ← match t.lookup "endpoints" with
    | some (.vArr xs) => decodeEndpoints xs
    | _ => none
  pure { version, agent_id, agent_name, tags, monitoring, server, storage,
         endpoints }

/-- `Config::save_to_file_secure` from `src/agent_config/loader.rs`
(lines 39-74), at the TOML value level: the file content written is the
serde serialisation of the configuration (the asynchronous write, flush and
the Unix `0o600` chmod are I/O outside the embedding). -/
def Config.save_to_file_secure (c : Config) : Toml := c.toToml

/-- `Config::from_file` from `src/agent_config/loader.rs` (lines 16-22), at
the TOML value level: parse the file content; a shape mismatch is the
`Config("Failed to parse config: ...")` error. -/
def Config.from_file (content : Toml) : Except AgentError Config :=
  match Config.fromToml content with
  | some c => .ok c
  | none => .error (.Config "Failed to parse config")

/-! ## Concrete sample values (used by counterexamples and witnesses) -/

/-- A configuration passing `Config::validate`. -/
def validCfg : Config :=
  { version := 1
    agent_id := 1
    agent_name := "Test Agent"
    tags := []
    monitoring := MonitoringConfig.defaultConfig
    server := ServerConfig.defaultConfig
    storage := StorageConfig.defaultConfig
    endpoints := [] }

/-- A second valid configuration, differing from `validCfg`. -/
def validCfg2 : Config :=
  { validCfg with version := 2, agent_name := "Updated Agent" }

/-- `validCfg` with `monitoring.interval_secs = 0` (fails validation). -/
def invalidIntervalCfg : Config :=
  { validCfg with
    monitoring := { MonitoringConfig.defaultConfig with interval_secs := 0 } }

/-- `validCfg` with `server.timeout_secs = 2 ^ 63`: doubling this `u64` wraps
to `0` in release mode. -/
def overflowTimeoutCfg : Config :=
  { validCfg with
    server := { ServerConfig.defaultConfig with timeout_secs := 2 ^ 63 } }

/-- A possible value drawn by `uuid::Uuid::new_v4()` (version nibble 4). -/
def v4SampleId : Nat := 0x550e8400e29b41d4a716446655440000

/-- An endpoint with `enabled = false`. -/
def disabledEndpoint : Endpoint :=
  { address := "example.com", port := none, tags := [], enabled := false }

/-- A configuration whose only endpoint is disabled. -/
def disabledOnlyCfg : Config := { validCfg with endpoints := [disabledEndpoint] }

/-- A successful ping result (1 of 1 echoes answered). -/
def samplePingSuccess : MonitoringResult :=
  { agent_id := "agent"
    target := { address := "a.example", port := none, tags := [], enabled := true }
    check_type := .Ping
      { resolved_ip := some "192.0.2.1"
        successes := 1
        failures := 0
        success_latencies := [10]
        avg_response_time_ms := some 10
        errors := [] } }

/-- A failed ping result (0 of 3 echoes answered). -/
def samplePingFailure : MonitoringResult :=
  { agent_id := "agent"
    target := { address := "b.example", port := none, tags := [], enabled := true }
    check_type := .Ping
      { resolved_ip := some "192.0.2.2"
        successes := 0
        failures := 3
        success_latencies := []
        avg_response_time_ms := none
        errors := ["Ping timeout", "Ping timeout", "Ping timeout"] } }

/-- A registration response as in the repository's own mock tests. -/
def sampleRegResponse : RegistrationResponse :=
  { status := "pending_claim"
    poll_url := "/v1/agent/1/claim-status"
    claim_url := "https://example.com/claim"
    expires_at := 1800000000 }

/-- A 404 poll response. -/
def resp404 : PollResponse := { status := 404, body := .malformed "", text := "" }

/-! # Theorems -/

/-! ## C1 — reload atomicity -/

/-- C1: Reload atomicity. If `new_config` fails validation,
`Agent::reload_config` returns that validation error and the stored
configuration (as returned by `config_clone`) is exactly the pre-call value;
if it passes validation, `reload_config` returns `Ok` and the subsequent
configuration snapshot equals `new_config`. (Sequential model of the
`RwLock`-guarded swap; the write is a single assignment under the exclusive
lock.) -/
theorem reload_config_atomicity (a : Agent) (new_config : Config) :
    (∀ e, new_config.validate = .error e →
      a.reload_config new_config = (.error e, a) ∧
      (a.reload_config new_config).2.config_clone = a.config_clone) ∧
    (new_config.validate = .ok () →
      (a.reload_config new_config).1 = .ok () ∧
      (a.reload_config new_config).2.config_clone = new_config) := by
  constructor
  · intro e he
    simp [Agent.reload_config, he, Agent.config_clone]
  · intro hok
    simp [Agent.reload_config, hok, Agent.config_clone]

/-- Witness for C1 at concrete configurations: an invalid reload is rejected
and keeps the old configuration; a valid reload installs the new one. -/
theorem reload_config_atomicity_witness :
    ((Agent.new validCfg).reload_config invalidIntervalCfg =
        (.error (.Config "monitoring interval must be greater than 0"), Agent.new validCfg) ∧
      ((Agent.new validCfg).reload_config invalidIntervalCfg).2.config_clone =
        (Agent.new validCfg).config_clone) ∧
    (((Agent.new validCfg).reload_config validCfg2).1 = .ok () ∧
      ((Agent.new validCfg).reload_config validCfg2).2.config_clone = validCfg2) :=
  ⟨(reload_config_atomicity (Agent.new validCfg) invalidIntervalCfg).1
      (.Config "monitoring interval must be greater than 0") (by decide),
    (reload_config_atomicity (Agent.new validCfg) validCfg2).2 (by decide)⟩

/-! ## C2 — validation postcondition -/

/-- C2 counterexample: the claim fails as stated. At
`server.timeout_secs = 2 ^ 63` the `u64` product `timeout_secs * 2` wraps to
`0` in release mode, so the ratio check passes and `validate` returns `Ok`,
yet `report_interval_secs ≥ 2 · timeout_secs` is false (`300 < 2 ^ 64`). -/
theorem validate_ratio_overflow_cex :
    overflowTimeoutCfg.validate = .ok () ∧
    ¬(2 * overflowTimeoutCfg.server.timeout_secs ≤
        overflowTimeoutCfg.server.report_interval_secs) := by
  constructor
  · decide
  · decide

/-- C2 (amended): if `Config::validate` returns `Ok` then
`monitoring.interval_secs > 0`, `server.url` is non-empty, `agent_id` is not
the nil UUID, `server.timeout_secs > 0`, `server.report_interval_secs > 0`,
`report_interval_secs ≥ 2 · timeout_secs` *provided the `u64` product
`timeout_secs * 2` does not overflow*, and a present `api_key` is non-empty. -/
theorem validate_ok_postcondition (c : Config) (h : c.validate = .ok ()) :
    0 < c.monitoring.interval_secs ∧
    c.server.url ≠ "" ∧
    c.agent_id ≠ 0 ∧
    0 < c.server.timeout_secs ∧
    0 < c.server.report_interval_secs ∧
    (c.server.timeout_secs * 2 < 2 ^ 64 →
      2 * c.server.timeout_secs ≤ c.server.report_interval_secs) ∧
    (∀ k, c.server.api_key = some k → k ≠ "") := by
  unfold Config.validate at h
  split_ifs at h with h1 h2 h3 h4 h5 h6 h7
  refine ⟨by omega, h6, h1, by omega, by omega, ?_, ?_⟩
  · intro hlt
    rw [Nat.mod_eq_of_lt hlt] at h5
    omega
  · intro k hk hke
    exact h7 ⟨by simp [hk], by simp [hk, hke]⟩

/-- Witness for C2 (amended) at `validCfg`. -/
theorem validate_ok_postcondition_witness :
    0 < validCfg.monitoring.interval_secs ∧
    validCfg.server.url ≠ "" ∧
    validCfg.agent_id ≠ 0 ∧
    0 < validCfg.server.timeout_secs ∧
    0 < validCfg.server.report_interval_secs ∧
    (validCfg.server.timeout_secs * 2 < 2 ^ 64 →
      2 * validCfg.server.timeout_secs ≤ validCfg.server.report_interval_secs) ∧
    (∀ k, validCfg.server.api_key = some k → k ≠ "") :=
  validate_ok_postcondition validCfg (by decide)

/-! ## C3 — dispatcher endpoint filtering -/

/-- C3: the dispatcher does not filter on `Endpoint::enabled`. With a single
disabled endpoint the enabled-filtered set is empty, yet the tick of
`run_check_loop` hands that endpoint to the prober (the loop only tests
`config.endpoints.is_empty()` and iterates all of `config.endpoints`). -/
theorem dispatcher_probes_disabled_endpoint :
    tickProbedEndpoints disabledOnlyCfg = [disabledEndpoint] ∧
    disabledOnlyCfg.endpoints.filter (fun e => e.enabled) = [] ∧
    disabledEndpoint.enabled = false := by
  refine ⟨by decide, by decide, by decide⟩

/-! ## C9 — default config and the nil-UUID check -/

/-- C9: `Config::default()` draws `agent_id` as a fresh random v4 UUID
(`src/agent_config/types.rs` line 40), which is never nil, so `validate`
accepts the default configuration instead of returning
`Config("agent_id cannot be nil UUID")`; that error occurs only when the
`agent_id` is actually nil (the default the spec and the repository's own
`test_apply_claim_result` assume). Shown at a sample v4 value. -/
theorem default_config_not_rejected :
    (Config.defaultConfig v4SampleId).validate = .ok () ∧
    (Config.defaultConfig v4SampleId).validate ≠
      .error (.Config "agent_id cannot be nil UUID") ∧
    (Config.defaultConfig 0).validate =
      .error (.Config "agent_id cannot be nil UUID") := by
  refine ⟨by decide, by decide, by decide⟩

/-! ## C7 — ping result semantics -/

/-- The `successes` counter of the echo fold counts the successful echoes. -/
theorem foldl_pingStep_successes (outcomes : List EchoOutcome)
    (acc : Nat × Nat × List ℚ × List String) :
    (outcomes.foldl pingStep acc).1 = acc.1 + outcomes.countP EchoOutcome.isSuccess := by
  induction outcomes generalizing acc with
  | nil => simp
  | cons o rest ih =>
      obtain ⟨s, f, ls, es⟩ := acc
      cases o with
      | success l =>
          simp [pingStep, ih, List.countP_cons, EchoOutcome.isSuccess]
          omega
      | failure m =>
          simp [pingStep, ih, List.countP_cons, EchoOutcome.isSuccess]

/-- The `success_latencies` list of the echo fold collects the successful
latencies in order. -/
theorem foldl_pingStep_latencies (outcomes : List EchoOutcome)
    (acc : Nat × Nat × List ℚ × List String) :
    (outcomes.foldl pingStep acc).2.2.1 =
      acc.2.2.1 ++ outcomes.filterMap EchoOutcome.latencyMs? := by
  induction outcomes generalizing acc with
  | nil => simp
  | cons o rest ih =>
      obtain ⟨s, f, ls, es⟩ := acc
      cases o <;> simp [pingStep, ih, EchoOutcome.latencyMs?]

/-- C7: Ping result semantics. Every `MonitoringResult` produced by
`PingChecker::check` carries a ping detail record `pr` such that
`is_successful()` holds iff at least one echo succeeded,
`avg_response_time_ms` is the arithmetic mean of `success_latencies` when
that list is non-empty and `None` when it is empty, and `success_latencies`
are exactly the successful echo latencies (none on resolution failure). -/
theorem ping_result_semantics (agent_id : String) (endpoint : Endpoint)
    (resolution : Except String String) (outcomes : List EchoOutcome) :
    ∃ pr : PingResult,
      (pingCheck agent_id endpoint resolution outcomes).check_type = .Ping pr ∧
      ((pingCheck agent_id endpoint resolution outcomes).is_successful = true ↔
        1 ≤ (match resolution with
              | .ok _ => outcomes
              | .error _ => []).countP EchoOutcome.isSuccess) ∧
      (pr.success_latencies ≠ [] →
        pr.avg_response_time_ms =
          some (pr.success_latencies.sum / pr.success_latencies.length)) ∧
      (pr.success_latencies = [] → pr.avg_response_time_ms = none) ∧
      pr.success_latencies =
        (match resolution with
          | .ok _ => outcomes
          | .error _ => []).filterMap EchoOutcome.latencyMs? := by
  cases resolution with
  | error e =>
      refine ⟨pingResolveFailure e, rfl, ?_, ?_, ?_, ?_⟩ <;>
        simp [MonitoringResult.is_successful, pingCheck, pingResolveFailure]
  | ok ip =>
      refine ⟨pingAccumulate ip outcomes, rfl, ?_, ?_, ?_, ?_⟩
      · simp [MonitoringResult.is_successful, pingCheck, pingAccumulate,
          foldl_pingStep_successes]
      · intro hne
        simp only [pingAccumulate] at hne ⊢
        rw [if_pos hne]
      · intro hnil
        simp only [pingAccumulate] at hnil ⊢
        rw [if_neg (by simp [hnil])]
      · simp [pingAccumulate, foldl_pingStep_latencies]

/-- Witness for C7 at a concrete two-echo run (one success of 10 ms, one
timeout). -/
theorem ping_result_semantics_witness :
    ∃ pr : PingResult,
      (pingCheck "agent" disabledEndpoint (.ok "192.0.2.1")
        [.success 10, .failure "Ping timeout"]).check_type = .Ping pr ∧
      ((pingCheck "agent" disabledEndpoint (.ok "192.0.2.1")
        [.success 10, .failure "Ping timeout"]).is_successful = true ↔
        1 ≤ (match (.ok "192.0.2.1" : Except String String) with
              | .ok _ => [EchoOutcome.success 10, .failure "Ping timeout"]
              | .error _ => []).countP EchoOutcome.isSuccess) ∧
      (pr.success_latencies ≠ [] →
        pr.avg_response_time_ms =
          some (pr.success_latencies.sum / pr.success_latencies.length)) ∧
      (pr.success_latencies = [] → pr.avg_response_time_ms = none) ∧
      pr.success_latencies =
        (match (.ok "192.0.2.1" : Except String String) with
          | .ok _ => [EchoOutcome.success 10, .failure "Ping timeout"]
          | .error _ => []).filterMap EchoOutcome.latencyMs? :=
  ping_result_semantics "agent" disabledEndpoint (.ok "192.0.2.1")
    [.success 10, .failure "Ping timeout"]

/-! ## C8 — counter aggregation invariant -/

/-- One aggregation step preserves the counter equation. -/
theorem processResult_preserves_invariant (s : AgentStatus) (r : MonitoringResult)
    (h : s.checks_performed = s.checks_successful + s.checks_failed) :
    (s.processResult r).checks_performed =
      (s.processResult r).checks_successful + (s.processResult r).checks_failed := by
  by_cases hb : r.is_successful <;> simp [AgentStatus.processResult, hb] <;> omega

/-- C8: Counter aggregation invariant. Starting from any `AgentStatus` with
`checks_performed = checks_successful + checks_failed`, draining any finite
sequence of monitoring results through the aggregation task preserves the
equation (and hence it holds at every quiescent point: instantiate with any
prefix of the drained sequence). -/
theorem checks_counter_invariant (s : AgentStatus) (rs : List MonitoringResult)
    (h : s.checks_performed = s.checks_successful + s.checks_failed) :
    (s.processResults rs).checks_performed =
      (s.processResults rs).checks_successful +
        (s.processResults rs).checks_failed := by
  induction rs generalizing s with
  | nil => simpa [AgentStatus.processResults] using h
  | cons r rest ih =>
      simpa [AgentStatus.processResults, List.foldl_cons] using
        ih (s.processResult r) (processResult_preserves_invariant s r h)

/-- Witness for C8: a fresh status (all counters zero) processing one
successful and one failed ping result. -/
theorem checks_counter_invariant_witness :
    ((AgentStatus.new "agent").processResults
        [samplePingSuccess, samplePingFailure]).checks_performed =
      ((AgentStatus.new "agent").processResults
        [samplePingSuccess, samplePingFailure]).checks_successful +
        ((AgentStatus.new "agent").processResults
          [samplePingSuccess, samplePingFailure]).checks_failed :=
  checks_counter_invariant (AgentStatus.new "agent")
    [samplePingSuccess, samplePingFailure] (by decide)

/-! ## C5 / C10 — registration retry loop -/

/-- Doubling backoffs: starting delay `d` over `k + 1` failures is `d`
followed by the backoffs of starting delay `2d` over `k` failures. -/
theorem backoff_shift (d k : Nat) :
    (List.range (k + 1)).map (fun i => d * 2 ^ i) =
      d :: (List.range k).map (fun i => d * 2 * 2 ^ i) := by
  rw [List.range_succ_eq_map, List.map_cons, List.map_map]
  simp only [pow_zero, mul_one]
  congr 1
  apply List.map_congr_left
  intro i _
  simp [Function.comp, pow_succ]
  ring

/-- The retry loop performs at most `max_retries - attempt` registration
attempts from loop position `attempt`. -/
theorem registerAux_attempts_le (oracle : Nat → Except AgentError RegistrationResponse)
    (R : Nat) :
    ∀ k a d, R - a ≤ k → (registerAux oracle R a d).attempts ≤ R - a := by
  intro k
  induction k with
  | zero =>
      intro a d h
      have ha : ¬ a < R := by omega
      unfold registerAux
      simp [ha]
  | succ k ih =>
      intro a d h
      unfold registerAux
      by_cases ha : a < R
      · rw [dif_pos ha]
        cases horacle : oracle a with
        | ok r => show 1 ≤ R - a; omega
        | error e =>
            by_cases hlast : a < R - 1
            · simp only [hlast, if_true]
              have hrec := ih (a + 1) (d * 2) (by omega)
              show (registerAux oracle R (a + 1) (d * 2)).attempts + 1 ≤ R - a
              omega
            · simp only [hlast, if_false]
              show 1 ≤ R - a
              omega
      · rw [dif_neg ha]
        show 0 ≤ R - a
        omega

/-- If attempts `a, a+1, …, a+k-1` fail and attempt `a+k` succeeds (within
bounds), the loop returns that success after `k + 1` attempts, sleeping the
doubling backoffs `d, 2d, …, 2^(k-1)·d`. -/
theorem registerAux_first_success (oracle : Nat → Except AgentError RegistrationResponse)
    (R : Nat) :
    ∀ k a d resp, a + k < R →
      (∀ i, i < k → ∃ e, oracle (a + i) = .error e) →
      oracle (a + k) = .ok resp →
      registerAux oracle R a d =
        { result := some (.ok resp), attempts := k + 1,
          sleeps := (List.range k).map fun i => d * 2 ^ i } := by
  intro k
  induction k with
  | zero =>
      intro a d resp hlt hfail hok
      rw [Nat.add_zero] at hok
      unfold registerAux
      rw [dif_pos (by omega), hok]
      simp
  | succ k ih =>
      intro a d resp hlt hfail hok
      obtain ⟨e, he⟩ := hfail 0 (by omega)
      rw [Nat.add_zero] at he
      unfold registerAux
      rw [dif_pos (by omega), he]
      dsimp only
      rw [if_pos (show a < R - 1 from by omega)]
      have hrest := ih (a + 1) (d * 2) resp (by omega)
        (fun i hi => by
          obtain ⟨e', he'⟩ := hfail (i + 1) (by omega)
          exact ⟨e', by rw [show a + 1 + i = a + (i + 1) from by omega]; exact he'⟩)
        (by rw [show a + 1 + k = a + (k + 1) from by omega]; exact hok)
      rw [hrest, backoff_shift]

/-- If all `n` attempts from position `a` (with `a + n = max_retries`) fail,
the loop returns the last attempt's error after `n` attempts, having slept
`n - 1` doubling backoffs. -/
theorem registerAux_all_fail (oracle : Nat → Except AgentError RegistrationResponse)
    (R : Nat) :
    ∀ n a d, 1 ≤ n → a + n = R →
      (∀ i, i < n → ∃ e, oracle (a + i) = .error e) →
      ∃ e, oracle (R - 1) = .error e ∧
        registerAux oracle R a d =
          { result := some (.error e), attempts := n,
            sleeps := (List.range (n - 1)).map fun i => d * 2 ^ i } := by
  intro n
  induction n with
  | zero => intro a d h1 _ _; exact absurd h1 (by omega)
  | succ n ih =>
      intro a d _h1 h2 hfail
      obtain ⟨e, he⟩ := hfail 0 (by omega)
      rw [Nat.add_zero] at he
      by_cases hn : n = 0
      · subst hn
        refine ⟨e, by rw [show R - 1 = a from by omega]; exact he, ?_⟩
        unfold registerAux
        rw [dif_pos (by omega), he]
        dsimp only
        rw [if_neg (show ¬ a < R - 1 from by omega)]
        simp
      · obtain ⟨e', he', hrest⟩ := ih (a + 1) (d * 2) (by omega) (by omega)
          (fun i hi => by
            obtain ⟨e'', he''⟩ := hfail (i + 1) (by omega)
            exact ⟨e'', by rw [show a + 1 + i = a + (i + 1) from by omega]; exact he''⟩)
        refine ⟨e', he', ?_⟩
        unfold registerAux
        rw [dif_pos (by omega), he]
        dsimp only
        rw [if_pos (show a < R - 1 from by omega), hrest]
        rw [show n + 1 - 1 = (n - 1) + 1 from by omega, backoff_shift]

/-- From any in-bounds loop position the loop returns (never falls through
into `unreachable!()`). -/
theorem registerAux_no_panic (oracle : Nat → Except AgentError RegistrationResponse)
    (R : Nat) :
    ∀ k a d, R - a ≤ k → a < R → (registerAux oracle R a d).result ≠ none := by
  intro k
  induction k with
  | zero => intro a d h ha; exact absurd ha (by omega)
  | succ k ih =>
      intro a d h ha
      unfold registerAux
      rw [dif_pos ha]
      cases horacle : oracle a with
      | ok r => simp
      | error e =>
          by_cases hlast : a < R - 1
          · simp only [hlast, if_true]
            have hrec := ih (a + 1) (d * 2) (by omega) (by omega)
            simpa using hrec
          · simp only [hlast, if_false]
            simp

/-- C5: Registration retry. For `max_registration_retries = r ≥ 1`:
`register_with_retry` performs at most `r` attempts; if the first `k`
attempts fail and attempt `k` (0-indexed, `k < r`) succeeds, it returns that
response after exactly `k + 1` attempts with sleeps `1, 2, …, 2^(k-1)`
seconds; if all `r` attempts fail it returns the `r`-th failure's error after
exactly `r` attempts; and `register_agent` turns any non-2xx HTTP status (or
send failure) into an error, which is what the loop retries on. -/
theorem register_with_retry_spec (oracle : Nat → Except AgentError RegistrationResponse)
    (r : Nat) (hr : 1 ≤ r) :
    (registerWithRetry oracle r).attempts ≤ r ∧
    (∀ k resp, k < r →
      (∀ i, i < k → ∃ e, oracle i = .error e) →
      oracle k = .ok resp →
      registerWithRetry oracle r =
        { result := some (.ok resp), attempts := k + 1,
          sleeps := (List.range k).map fun i => 2 ^ i }) ∧
    ((∀ i, i < r → ∃ e, oracle i = .error e) →
      ∃ e, oracle (r - 1) = .error e ∧
        registerWithRetry oracle r =
          { result := some (.error e), attempts := r,
            sleeps := (List.range (r - 1)).map fun i => 2 ^ i }) ∧
    (∀ reply : RegReply,
      (match reply with
        | .sendFailure _ => True
        | .response status _ _ => status < 200 ∨ 300 ≤ status) →
      ∃ msg, registerAgent reply = .error (.Network msg)) := by
  refine ⟨?_, ?_, ?_, ?_⟩
  · have h := registerAux_attempts_le oracle r r 0 1 (by omega)
    simpa using h
  · intro k resp hk hfail hok
    have h := registerAux_first_success oracle r k 0 1 resp (by omega)
      (fun i hi => by simpa using hfail i hi) (by simpa using hok)
    unfold registerWithRetry
    rw [h]
    simp
  · intro hfail
    obtain ⟨e, he, h⟩ := registerAux_all_fail oracle r r 0 1 hr (by omega)
      (fun i hi => by simpa using hfail i hi)
    refine ⟨e, he, ?_⟩
    unfold registerWithRetry
    rw [h]
    simp
  · intro reply hcond
    cases reply with
    | sendFailure m => exact ⟨"Failed to send registration request: " ++ m, rfl⟩
    | response status parseOutcome text =>
        replace hcond : status < 200 ∨ 300 ≤ status := hcond
        refine ⟨"Registration failed with status " ++ toString status ++ ": " ++ text, ?_⟩
        unfold registerAgent
        dsimp only
        rw [if_neg (by omega)]

/-- Witness for C5: two 500-failures then a success, `r = 3`; exactly three
attempts with sleeps `[1, 2]` seconds (the repository's own
`test_registration_with_retry` scenario). -/
theorem register_with_retry_spec_witness :
    registerWithRetry
        (fun i => if i < 2 then
            .error (.Network "Registration failed with status 500: ")
          else .ok sampleRegResponse) 3 =
      { result := some (.ok sampleRegResponse), attempts := 3,
        sleeps := (List.range 2).map fun i => 2 ^ i } :=
  (register_with_retry_spec
      (fun i => if i < 2 then
          .error (.Network "Registration failed with status 500: ")
        else .ok sampleRegResponse) 3 (by omega)).2.1 2 sampleRegResponse
    (by omega)
    (fun i hi =>
      ⟨.Network "Registration failed with status 500: ", by
        interval_cases i <;> rfl⟩)
    (by rfl)

/-- C10: with `max_registration_retries = 0` the loop body never runs — no
registration attempt is performed — and control reaches the `unreachable!()`
after the loop (a panic, modelled as `result = none`); for every
`max_retries ≥ 1` the function is total (the `unreachable!()` is never
reached). -/
theorem register_with_retry_zero_unreachable
    (oracle : Nat → Except AgentError RegistrationResponse) :
    registerWithRetry oracle 0 = { result := none, attempts := 0, sleeps := [] } ∧
    ∀ r, 1 ≤ r → (registerWithRetry oracle r).result ≠ none := by
  constructor
  · unfold registerWithRetry registerAux
    simp
  · intro r hr
    exact registerAux_no_panic oracle r r 0 1 (by omega) (by omega)

/-- Witness for C10 at concrete oracles: zero retries panic with zero
attempts; one retry returns. -/
theorem register_with_retry_zero_unreachable_witness :
    registerWithRetry (fun _ => .error (.Network "boom")) 0 =
      { result := none, attempts := 0, sleeps := [] } ∧
    (registerWithRetry (fun _ => .ok sampleRegResponse) 1).result ≠ none :=
  ⟨(register_with_retry_zero_unreachable (fun _ => .error (.Network "boom"))).1,
    (register_with_retry_zero_unreachable (fun _ => .ok sampleRegResponse)).2 1
      (by omega)⟩

/-! ## C4 — claim poll 404 handling -/

/-- C4 counterexample: a 404 on the claim-status poll makes the workflow
abort with `Error::Network("Agent registration not found or expired")`
(`polling.rs` lines 117-122 propagated through `poll_claim_status`'s `?` and
`Claim::run`'s `?`), which is not the `ClaimExpired` error the claim
states. -/
theorem claim_poll_404_cex :
    pollClaimStatus [(resp404, 0)] =
      some (.error (.Network "Agent registration not found or expired")) ∧
    claimRunOutcome (.error (.Network "Agent registration not found or expired")) =
      .error (.Network "Agent registration not found or expired") ∧
    (.error (.Network "Agent registration not found or expired") :
        Except AgentError String) ≠ .error .ClaimExpired := by
  refine ⟨by decide, by decide, by decide⟩

/-- C4 (amended): a 404 poll response produces
`Network("Agent registration not found or expired")` — a network error that
aborts the workflow (not `ClaimExpired`; `ClaimExpired` arises only from a
pending response whose `expires_at` is not in the future) — and any other
non-2xx response likewise produces a network error that aborts the
workflow. -/
theorem claim_poll_status_handling (r : PollResponse) (now : Int)
    (rest : List (PollResponse × Int)) :
    (r.status = 404 →
      checkClaimStatus r =
        .error (.Network "Agent registration not found or expired")) ∧
    (r.status ≠ 200 → r.status ≠ 404 →
      ∃ msg, checkClaimStatus r = .error (.Network msg)) ∧
    (∀ e, checkClaimStatus r = .error e →
      pollClaimStatus ((r, now) :: rest) = some (.error e) ∧
      claimRunOutcome (.error e) = .error e) ∧
    (∀ t, checkClaimStatus r = .ok (.Pending t) → t - now ≤ 0 →
      pollClaimStatus ((r, now) :: rest) = some (.ok none) ∧
      claimRunOutcome (.ok none) = .error .ClaimExpired) := by
  refine ⟨?_, ?_, ?_, ?_⟩
  · intro h404
    unfold checkClaimStatus
    rw [if_neg (by omega), if_pos h404]
  · intro h200 h404
    unfold checkClaimStatus
    rw [if_neg h200, if_neg h404]
    exact ⟨_, rfl⟩
  · intro e he
    constructor
    · unfold pollClaimStatus
      rw [he]
    · rfl
  · intro t ht hexp
    constructor
    · unfold pollClaimStatus
      rw [ht]
      dsimp only
      rw [if_pos hexp]
    · rfl

/-- Witness for C4 (amended): a concrete 404 response, a concrete 503
response, and a concrete expired pending response. -/
theorem claim_poll_status_handling_witness :
    checkClaimStatus resp404 =
      .error (.Network "Agent registration not found or expired") ∧
    (∃ msg, checkClaimStatus { status := 503, body := .malformed "", text := "oops" } =
      .error (.Network msg)) ∧
    (pollClaimStatus [(resp404, 0)] =
      some (.error (.Network "Agent registration not found or expired")) ∧
      claimRunOutcome (.error (.Network "Agent registration not found or expired")) =
        .error (.Network "Agent registration not found or expired")) ∧
    (pollClaimStatus [({ status := 200, body := .pendingClaim 5, text := "" }, 7)] =
      some (.ok none) ∧
      claimRunOutcome (.ok none) = .error .ClaimExpired) :=
  ⟨(claim_poll_status_handling resp404 0 []).1 rfl,
    (claim_poll_status_handling { status := 503, body := .malformed "", text := "oops" }
      0 []).2.1 (by decide) (by decide),
    (claim_poll_status_handling resp404 0 []).2.2.1
      (.Network "Agent registration not found or expired") (by decide),
    (claim_poll_status_handling { status := 200, body := .pendingClaim 5, text := "" }
      7 []).2.2.2 5 (by decide) (by decide)⟩

/-! ## C6 — configuration round-trip -/

/-- Hex character encoding round-trips on digit values. -/
theorem hexCharVal_hexDigitChar : ∀ d, d < 16 → hexCharVal (hexDigitChar d) = d := by
  decide

/-- Hex digit characters are lowercase hex digits. -/
theorem isHexLower_hexDigitChar : ∀ d, d < 16 → isHexLower (hexDigitChar d) = true := by
  decide

/-- High-order zero padding contributes nothing to a digit string's value. -/
theorem ofDigits_replicate_zero (b k : Nat) :
    Nat.ofDigits b (List.replicate k 0) = 0 := by
  induction k with
  | zero => simp
  | succ k ih => simp [List.replicate_succ, Nat.ofDigits_cons, ih]

/-- A 128-bit value has at most 32 base-16 digits. -/
theorem digits16_len_le (n : Nat) (h : n < 2 ^ 128) :
    (Nat.digits 16 n).length ≤ 32 := by
  rcases Nat.eq_zero_or_pos n with rfl | hn
  · simp
  · by_contra hlen
    push_neg at hlen
    have h1 : (16 : ℕ) ^ (Nat.digits 16 n).length ≤ 16 * n :=
      Nat.base_pow_length_digits_le 16 n (by norm_num) (by omega)
    have h2 : (16 : ℕ) ^ 33 ≤ 16 ^ (Nat.digits 16 n).length :=
      Nat.pow_le_pow_right (by norm_num) (by omega)
    have h4 : (16 : ℕ) ^ 33 = 16 * 16 ^ 32 := by ring
    have h5 : n < 16 ^ 32 := by
      calc n < 2 ^ 128 := h
        _ = 16 ^ 32 := by norm_num
    omega

/-- Parsing the rendered UUID string recovers the 128-bit value. -/
theorem uuid_roundtrip (n : Nat) (h : n < 2 ^ 128) :
    uuidFromString (uuidToString n) = some n := by
  have hlen : (Nat.digits 16 n).length ≤ 32 := digits16_len_le n h
  have hmem : ∀ d ∈ Nat.digits 16 n ++
      List.replicate (32 - (Nat.digits 16 n).length) 0, d < 16 := by
    intro d hd
    rcases List.mem_append.mp hd with hd | hd
    · exact Nat.digits_lt_base (by norm_num) hd
    · have := List.eq_of_mem_replicate hd
      omega
  unfold uuidToString uuidFromString
  dsimp only
  rw [if_pos]
  · congr 1
    rw [List.map_map]
    have hmap : ((Nat.digits 16 n ++
        List.replicate (32 - (Nat.digits 16 n).length) 0).reverse).map
        (hexCharVal ∘ hexDigitChar) =
        (Nat.digits 16 n ++
          List.replicate (32 - (Nat.digits 16 n).length) 0).reverse := by
      have helt : ∀ d ∈ (Nat.digits 16 n ++
          List.replicate (32 - (Nat.digits 16 n).length) 0).reverse,
          (hexCharVal ∘ hexDigitChar) d = id d := by
        intro d hd
        exact hexCharVal_hexDigitChar d (hmem d (List.mem_reverse.mp hd))
      rw [List.map_congr_left helt, List.map_id]
    rw [hmap, List.reverse_reverse, Nat.ofDigits_append,
      ofDigits_replicate_zero, Nat.ofDigits_digits]
    ring
  · constructor
    · simp only [List.length_map, List.length_reverse, List.length_append,
        List.length_replicate]
      omega
    · rw [List.all_eq_true]
      intro c hc
      rw [List.mem_map] at hc
      obtain ⟨d, hd, rfl⟩ := hc
      exact isHexLower_hexDigitChar d (hmem d (List.mem_reverse.mp hd))

/-- An unsigned field decodes to the value it was encoded from. -/
theorem asNat_natCast (n : Nat) : Toml.asNat (some (.vInt (n : Int))) = some n := by
  simp [Toml.asNat]

/-- String sequences round-trip. -/
theorem strList_roundtrip (l : List String) :
    Toml.asStrList (some (.vArr (l.map .vStr))) = some l := by
  induction l with
  | nil => rfl
  | cons s rest ih =>
      simp only [Toml.asStrList, List.map_cons, decodeStrs] at ih ⊢
      simp [ih]

/-- `MonitoringConfig` round-trips. -/
theorem monitoring_roundtrip (m : MonitoringConfig) :
    MonitoringConfig.fromToml m.toToml = some m := by
  simp [MonitoringConfig.toToml, MonitoringConfig.fromToml, Toml.lookup,
    List.lookup, asNat_natCast, Toml.asBool, Option.bind]

/-- `ClaimConfig` round-trips. -/
theorem claimcfg_roundtrip (c : ClaimConfig) :
    ClaimConfig.fromToml c.toToml = some c := by
  simp [ClaimConfig.toToml, ClaimConfig.fromToml, Toml.lookup, List.lookup,
    asNat_natCast, Option.bind]

/-- `ServerConfig` round-trips (both with and without an `api_key`). -/
theorem server_roundtrip (s : ServerConfig) :
    ServerConfig.fromToml s.toToml = some s := by
  obtain ⟨url, api_key, ris, his, vt, ts, ra, claiming⟩ := s
  cases api_key with
  | none =>
      simp [ServerConfig.toToml, ServerConfig.fromToml, Toml.lookup,
        List.lookup, optField, Toml.asStr, Toml.asBool, asNat_natCast,
        claimcfg_roundtrip, Option.bind]
  | some k =>
      simp [ServerConfig.toToml, ServerConfig.fromToml, Toml.lookup,
        List.lookup, optField, Toml.asStr, Toml.asBool, asNat_natCast,
        claimcfg_roundtrip, Option.bind]

/-- `StorageConfig` round-trips. -/
theorem storage_roundtrip (s : StorageConfig) :
    StorageConfig.fromToml s.toToml = some s := by
  simp [StorageConfig.toToml, StorageConfig.fromToml, Toml.lookup,
    List.lookup, Toml.asStr, asNat_natCast, Option.bind]

/-- `Endpoint` round-trips (both with and without a `port`; the `enabled`
key is always written, so the serde default is not consulted). -/
theorem endpoint_roundtrip (e : Endpoint) :
    Endpoint.fromToml e.toToml = some e := by
  obtain ⟨address, port, tags, enabled⟩ := e
  cases port with
  | none =>
      simp [Endpoint.toToml, Endpoint.fromToml, Toml.lookup, List.lookup,
        optField, Toml.asStr, strList_roundtrip, Option.bind]
  | some p =>
      simp [Endpoint.toToml, Endpoint.fromToml, Toml.lookup, List.lookup,
        optField, Toml.asStr, strList_roundtrip, Option.bind]

/-- Endpoint sequences round-trip. -/
theorem endpoints_roundtrip (l : List Endpoint) :
    decodeEndpoints (l.map Endpoint.toToml) = some l := by
  induction l with
  | nil => rfl
  | cons e rest ih => simp [decodeEndpoints, endpoint_roundtrip, ih]

/-- C6: Configuration round-trip. For every configuration value `c` (with
`agent_id` a 128-bit UUID value, its Rust type invariant), saving with
`save_to_file_secure` and loading the written content with
`Config::from_file` returns exactly `c`. -/
theorem config_save_load_roundtrip (c : Config) (h : c.agent_id < 2 ^ 128) :
    Config.from_file c.save_to_file_secure = .ok c := by
  have huuid := uuid_roundtrip c.agent_id h
  unfold Config.from_file Config.save_to_file_secure
  have hfrom : Config.fromToml c.toToml = some c := by
    simp [Config.toToml, Config.fromToml, Toml.lookup, List.lookup,
      Toml.asStr, asNat_natCast, huuid, monitoring_roundtrip, server_roundtrip,
      storage_roundtrip, endpoints_roundtrip, strList_roundtrip, Option.bind]
  rw [hfrom]

/-- Witness for C6 at `validCfg`. -/
theorem config_save_load_roundtrip_witness :
    Config.from_file validCfg.save_to_file_secure = .ok validCfg :=
  config_save_load_roundtrip validCfg (by decide)

end Smotra
